import Mathlib

/-!
# Verification of the trusted-spoke file-transfer Lambda

Shallow embedding of `src/trusted-spoke/lambda/index.py`: a Lambda that
relays S3 objects to two on-premises SFTP destinations (`op1`, `op2`),
records per-object and per-batch CloudWatch metrics, and returns a batch
summary.

Modelling conventions:
* External effects (S3 fetch, SFTP connect, mkdir races, uploads, the
  Secrets Manager fetch, the hourly-scan listing, wall-clock readings) are
  supplied as explicit oracle inputs; the Python control flow over those
  outcomes is embedded faithfully.
* Python exceptions become `Except Unit`; a `try/except` converting every
  exception to a boolean becomes a `match` on the `Except` value.
* The local filesystem is the list of existing temp-file paths; each remote
  SFTP endpoint is the list of existing remote directories.
* Byte content is abstracted to a `Nat` (the relay is byte-identical copy;
  no claim inspects content). URL-decoding of keys (`unquote_plus`) is
  omitted: keys are taken already decoded.
* On a failed delivery the partially-created remote directory state is not
  tracked (no claim observes it); the local temp-file state is tracked on
  every path because the `finally` cleanup is claimed behavior.
-/

/-- A UTC instant at the granularity the code observes
(`datetime.now(timezone.utc)` is only ever formatted as `%Y/%m/%d/%H`). -/
structure DT where
  year : Nat
  month : Nat
  day : Nat
  hour : Nat
deriving DecidableEq, Repr

/-- Zero-pad to two digits, as `strftime` `%m`/`%d`/`%H` do. -/
def pad2 (n : Nat) : String :=
  if n < 10 then "0" ++ toString n else toString n

/-- Zero-pad to four digits, as `strftime` `%Y` does. -/
def pad4 (n : Nat) : String :=
  if n < 10 then "000" ++ toString n
  else if n < 100 then "00" ++ toString n
  else if n < 1000 then "0" ++ toString n
  else toString n

/-- `get_current_path` (index.py:18-21): format the given UTC instant as
`yyyy/MM/DD/HH`. The wall clock is an explicit argument: each call site of
the Python function consumes one reading from its clock oracle. -/
def get_current_path (now : DT) : String :=
  pad4 now.year ++ "/" ++ pad2 now.month ++ "/" ++ pad2 now.day ++ "/" ++ pad2 now.hour

/-- `os.path.dirname` for the POSIX paths the code builds: everything up to
the last `/`, with trailing slashes stripped unless the head is all
slashes (so `dirname "/a" = "/"`, `dirname "a" = ""`, `dirname "/" = "/"`). -/
def dirname (p : String) : String :=
  let revHead := p.data.reverse.dropWhile (fun c => c ≠ '/')
  if revHead.all (fun c => c = '/') then ⟨revHead.reverse⟩
  else ⟨(revHead.dropWhile (fun c => c = '/')).reverse⟩

/-- `os.path.basename`: everything after the last `/`. -/
def basename (p : String) : String :=
  ⟨(p.data.reverse.takeWhile (fun c => c ≠ '/')).reverse⟩

/-- Python `int()` applied to the decimal port strings the secret holds:
`some` of the value on a nonempty all-digit string, `none` (a `ValueError`)
otherwise. (Defined over the character list so that concrete instances
reduce; `String.toNat?` is semantically the same but opaque to the kernel.) -/
def int_of_string (s : String) : Option Nat :=
  match s.data with
  | [] => none
  | l => l.foldl
      (fun acc c => acc.bind (fun n => if c.isDigit then some (n * 10 + (c.toNat - 48)) else none))
      (some 0)

/-- `create_remote_directory` (index.py:94-104). State: `dirs` is the set of
directories existing at the destination. `sftp.stat` succeeds iff the
directory is in `dirs`; on `IOError` the code recursively provisions the
parent and then calls `sftp.mkdir`, which fails iff the directory already
exists — in particular when `race` says a concurrent invocation created it
between the failed `stat` and the `mkdir`. Any `mkdir` failure is NOT
caught here; it propagates to the caller (`.error`). `fuel` bounds the
recursion as Python's recursion limit does; the caller passes fuel larger
than the path length, which `dirname`'s strict shortening of the absolute
paths the code builds never exhausts. -/
def create_remote_directory (race : String → Bool) (fuel : Nat)
    (dirs : List String) (remote_dir : String) : Except Unit (List String) :=
  match fuel with
  | 0 => .error ()
  | fuel + 1 =>
    if remote_dir = "/" then .ok dirs
    else if dirs.contains remote_dir then .ok dirs
    else
      match create_remote_directory race fuel dirs (dirname remote_dir) with
      | .error e => .error e
      | .ok dirs1 =>
        let dirs2 := if race remote_dir then remote_dir :: dirs1 else dirs1
        if dirs2.contains remote_dir then .error ()
        else .ok (remote_dir :: dirs2)

/-- Outcomes of the network-facing steps of one delivery attempt:
whether `client.connect` succeeds within its 30-second timeout, which
remote directories a concurrently running invocation creates during
provisioning, and whether `sftp.put` succeeds. -/
structure NetEnv where
  connectOk : Bool
  race : String → Bool
  putOk : Bool

/-- Observation of one `transfer_file_to_onprem` call: the boolean the
function returns, the local filesystem and remote directory set afterwards,
the remote path the attempt targeted, and the uploaded remote path when the
upload happened. -/
structure TransferResult where
  success : Bool
  fs : List String
  dirs : List String
  target : String
  uploaded : Option String
deriving DecidableEq, Repr

/-- The `try` block of `transfer_file_to_onprem` after the temp file is
written (index.py:54-85): look up `<location>_host` / `<location>_port` in
the credentials record (a `KeyError` or an `int()` failure is an
exception), connect, provision the remote parent directory chain, upload.
Returns the remote directory set and uploaded path on success, the first
exception otherwise. -/
def transferBody (env : NetEnv) (dirs : List String) (file_path : String)
    (credentials : List (String × String)) (location : String) :
    Except Unit (List String × String) := do
  let _host ← match List.lookup (location ++ "_host") credentials with
    | some h => Except.ok h
    | none => Except.error ()
  let portStr ← match List.lookup (location ++ "_port") credentials with
    | some p => Except.ok p
    | none => Except.error ()
  let _port ← match int_of_string portStr with
    | some p => Except.ok p
    | none => Except.error ()
  if env.connectOk then Except.ok () else Except.error ()
  let remote_dir := dirname file_path
  let dirs1 ← create_remote_directory env.race (remote_dir.length + 1) dirs remote_dir
  if env.putOk then Except.ok (dirs1, file_path) else Except.error ()

/-- `transfer_file_to_onprem` (index.py:45-92). Writes the content to the
unique temp file `/tmp/<uuid>`, then runs the `try` block (`transferBody`).
`except Exception` converts any failure to `False`; `finally` removes the
temp file when it exists. The remote directory set on a failed attempt is
left unchanged in the model (not observed by claims). -/
def transfer_file_to_onprem (env : NetEnv) (uuid : String)
    (fs : List String) (dirs : List String) (file_path : String)
    (file_content : Nat) (credentials : List (String × String))
    (location : String) : TransferResult :=
  let temp_file_path := "/tmp/" ++ uuid
  -- with open(temp_file_path, 'wb') as f: f.write(file_content)
  let fs1 := temp_file_path :: fs
  let _ := file_content
  -- finally: if os.path.exists(temp_file_path): os.remove(temp_file_path)
  let fs2 := fs1.erase temp_file_path
  match transferBody env dirs file_path credentials location with
  | .ok (dirs1, up) =>
    { success := true, fs := fs2, dirs := dirs1, target := file_path, uploaded := some up }
  | .error _ =>
    { success := false, fs := fs2, dirs := dirs, target := file_path, uploaded := none }

/-- A metric observation handed to `send_metrics` (name and numeric value;
units and dimensions are fixed per name and not modelled). -/
structure Metric where
  name : String
  value : ℚ
deriving DecidableEq, Repr

/-- Per-object external outcomes for one `process_s3_event` call: the S3
`get_object`+`read` result as (content, ContentLength), the wall-clock
readings its `get_current_path` call sites would consume in order (the code
has exactly one such site, at index.py:122, which reads the head), the
measured duration, the two unique temp-file names, and the network
environment per destination. -/
structure ObjOracle where
  fetch : Except Unit (Nat × Nat)
  clock : List DT
  dur : ℚ
  uuid1 : String
  uuid2 : String
  env1 : NetEnv
  env2 : NetEnv

/-- Observation of one `process_s3_event` call: the boolean it returns, the
two delivery observations (absent when the S3 fetch raised), the per-object
metrics it emitted, and the local/remote state afterwards. -/
structure JobObs where
  success : Bool
  op1 : Option TransferResult
  op2 : Option TransferResult
  metrics : List Metric
  fs : List String
  dirs1 : List String
  dirs2 : List String
deriving DecidableEq, Repr

/-- `process_s3_event` (index.py:106-175). Fetches the object (any failure
is caught by the outer `except` at index.py:173 and becomes `False` with no
metrics emitted), computes `remote_path = /From_AWS/<get_current_path()>/<basename key>`
once (index.py:122, consuming one clock reading), delivers to `op1` then to
`op2` with that same path, and returns `all(locations_status.values())`. -/
def process_s3_event (orc : ObjOracle) (credentials : List (String × String))
    (fs : List String) (dirs1 : List String) (dirs2 : List String)
    (_bucket : String) (key : String) : JobObs :=
  match orc.fetch with
  | .error _ =>
    { success := false, op1 := none, op2 := none, metrics := [],
      fs := fs, dirs1 := dirs1, dirs2 := dirs2 }
  | .ok (file_content, file_size) =>
    let file_name := basename key
    let remote_path := "/From_AWS/" ++ get_current_path (orc.clock.headD ⟨0, 0, 0, 0⟩) ++ "/" ++ file_name
    let r1 := transfer_file_to_onprem orc.env1 orc.uuid1 fs dirs1 remote_path file_content credentials "op1"
    let r2 := transfer_file_to_onprem orc.env2 orc.uuid2 r1.fs dirs2 remote_path file_content credentials "op2"
    let overall_success := r1.success && r2.success
    let metrics : List Metric :=
      [ { name := "ExecutionTime", value := orc.dur },
        { name := "FileSize", value := (file_size : ℚ) },
        { name := "TransferSuccess", value := if overall_success then 1 else 0 } ]
    { success := overall_success, op1 := some r1, op2 := some r2, metrics := metrics,
      fs := r2.fs, dirs1 := r1.dirs, dirs2 := r2.dirs }

/-- One inner S3 event record as the handler reads it: `eventSource` and
`eventName` are absent-tolerant (`dict.get`), bucket and key are accessed
directly. -/
structure S3Rec where
  eventSource : Option String
  eventName : Option String
  bucket : String
  key : String

/-- The parsed body of one SQS record: `records` is `some` iff the JSON
object has a `Records` key. -/
structure S3EventBody where
  records : Option (List S3Rec)

/-- One outer SQS record: `body` is `some` iff the record has a `body` key
(its JSON string parsed). -/
structure SQSRec where
  body : Option S3EventBody

/-- The invocation payload: `records` is `some` iff the top-level event has
a `Records` key; otherwise the scheduled-scan path runs. -/
structure Event where
  records : Option (List SQSRec)

/-- The filter at index.py:201: the record is processed iff
`eventSource == 'aws:s3'` and `eventName` (defaulting to `''`) starts with
`'ObjectCreated'` (str.startswith, modelled over the character lists). -/
def isObjectCreated (r : S3Rec) : Bool :=
  r.eventSource == some "aws:s3" && "ObjectCreated".data.isPrefixOf (r.eventName.getD "").data

/-- The mutable state of the handler's processing loops. -/
structure LoopState where
  total_files : Nat
  successful_files : Nat
  fs : List String
  dirs1 : List String
  dirs2 : List String
  idx : Nat
  obs : List JobObs
deriving Repr

/-- Process one matching record (index.py:202-204): increment
`total_files`, run `process_s3_event` with the next per-object oracle, and
increment `successful_files` iff it returned `True`. -/
def stepObject (oracle : Nat → ObjOracle) (credentials : List (String × String))
    (st : LoopState) (bucket : String) (key : String) : LoopState :=
  let j := process_s3_event (oracle st.idx) credentials st.fs st.dirs1 st.dirs2 bucket key
  { total_files := st.total_files + 1,
    successful_files := st.successful_files + (if j.success then 1 else 0),
    fs := j.fs, dirs1 := j.dirs1, dirs2 := j.dirs2,
    idx := st.idx + 1, obs := st.obs ++ [j] }

/-- The inner loop over one parsed body's `Records` (index.py:200-204):
records failing the `isObjectCreated` filter are skipped without effect. -/
def stepS3Record (oracle : Nat → ObjOracle) (credentials : List (String × String))
    (st : LoopState) (r : S3Rec) : LoopState :=
  if isObjectCreated r then stepObject oracle credentials st r.bucket r.key else st

/-- The outer loop body over the event's SQS records (index.py:194-204):
records without a `body`, or whose body has no `Records`, contribute
nothing. -/
def stepSQSRecord (oracle : Nat → ObjOracle) (credentials : List (String × String))
    (st : LoopState) (sr : SQSRec) : LoopState :=
  match sr.body with
  | none => st
  | some ev =>
    match ev.records with
    | none => st
    | some recs => recs.foldl (stepS3Record oracle credentials) st

/-- The scheduled-scan loop body (index.py:218-229): every listed key is
processed, with a synthesized record naming the trusted bucket. -/
def stepScanKey (oracle : Nat → ObjOracle) (credentials : List (String × String))
    (bucket_name : String) (st : LoopState) (key : String) : LoopState :=
  stepObject oracle credentials st bucket_name key

/-- The value returned by a completed invocation (index.py:267-275),
together with the batch metrics it emitted (index.py:238-263) and the
per-object observations in processing order. -/
structure HandlerResult where
  statusCode : Nat
  total_files : Nat
  successful_files : Nat
  batchMetrics : List Metric
  obs : List JobObs
deriving DecidableEq, Repr

/-- The handler's two processing loops (index.py:193-231), starting from
zeroed counters: the queued path iterates the event's SQS records; the
scheduled path lists the bucket, a listing failure being caught at
index.py:230-231 and leaving the counters at zero. -/
def runLoops (event : Event) (credentials : List (String × String))
    (scanResult : Except Unit (List String)) (oracle : Nat → ObjOracle)
    (bucket_name : String) : LoopState :=
  let st0 : LoopState := ⟨0, 0, [], [], [], 0, []⟩
  match event.records with
  | some sqsRecs => sqsRecs.foldl (stepSQSRecord oracle credentials) st0
  | none =>
    match scanResult with
    | .error _ => st0
    | .ok keys => keys.foldl (stepScanKey oracle credentials bucket_name) st0

/-- The batch metrics built at index.py:238-261:
`BatchSuccessRate = successful/total × 100` appended only when
`total_files > 0`. -/
def batchMetricsOf (duration : ℚ) (total_files successful_files : Nat) : List Metric :=
  let batch_metrics : List Metric :=
    [ { name := "BatchExecutionTime", value := duration },
      { name := "BatchFilesProcessed", value := (total_files : ℚ) },
      { name := "BatchFilesSuccessful", value := (successful_files : ℚ) } ]
  if total_files > 0 then
    batch_metrics ++
      [ { name := "BatchSuccessRate",
          value := (successful_files : ℚ) / (total_files : ℚ) * 100 } ]
  else batch_metrics

/-- `lambda_handler` (index.py:177-275). `credsResult` is the outcome of
`get_onprem_credentials` (index.py:23-33): the secret fetched and JSON-parsed,
or the exception it re-raises — which the handler does not catch, so the
invocation fails (`.error`). With credentials in hand: the queued path
iterates the SQS records; the scheduled path lists the bucket (`scanResult`
is the `list_objects_v2` outcome — its failure is caught at index.py:230-231
and leaves the counters at zero). Afterwards the batch metrics are emitted,
`BatchSuccessRate = successful/total × 100` only when `total_files > 0`, and
a `statusCode 200` summary is returned. -/
def lambda_handler (event : Event) (credsResult : Except Unit (List (String × String)))
    (scanResult : Except Unit (List String)) (oracle : Nat → ObjOracle)
    (duration : ℚ) (bucket_name : String) : Except Unit HandlerResult :=
  match credsResult with
  | .error e => .error e
  | .ok credentials =>
    let st := runLoops event credentials scanResult oracle bucket_name
    .ok { statusCode := 200, total_files := st.total_files,
          successful_files := st.successful_files,
          batchMetrics := batchMetricsOf duration st.total_files st.successful_files,
          obs := st.obs }

/-- Modelled from the spec (§4.3 step 1), for comparison with the code: the
spec asserts the canonical remote path is "computed per delivery, not fixed
per job", so the `op1` delivery would use the clock reading at its own
`get_current_path` call and the `op2` delivery the next reading. -/
def perDeliveryPaths (clock : List DT) (key : String) : String × String :=
  ( "/From_AWS/" ++ get_current_path (clock.headD ⟨0, 0, 0, 0⟩) ++ "/" ++ basename key,
    "/From_AWS/" ++ get_current_path ((clock.drop 1).headD ⟨0, 0, 0, 0⟩) ++ "/" ++ basename key )

/-! ## Concrete fixtures used by witnesses and counterexamples -/

/-- A well-formed secret: host/port pairs for both destinations. -/
def credsGood : List (String × String) :=
  [("op1_host", "h1"), ("op1_port", "22"), ("op2_host", "h2"), ("op2_port", "2222")]

/-- A secret whose record lacks the `op1_host` key. -/
def credsNoOp1Host : List (String × String) :=
  [("op1_port", "22"), ("op2_host", "h2"), ("op2_port", "2222")]

/-- A fully healthy network: connect, no races, upload succeeds. -/
def envOk : NetEnv := { connectOk := true, race := fun _ => false, putOk := true }

/-- A healthy network in which a concurrent invocation creates the object's
hour directory between the failed `stat` and the `mkdir`. -/
def envRace : NetEnv :=
  { connectOk := true, race := fun d => d == "/From_AWS/2024/01/02/03", putOk := true }

/-- Per-object oracle: fetch succeeds, the first clock reading is in hour 03
and the next in hour 04 (the second delivery straddles the hour boundary),
deliveries to both destinations succeed. -/
def orcOk : ObjOracle :=
  { fetch := .ok (7, 120), clock := [⟨2024, 1, 2, 3⟩, ⟨2024, 1, 2, 4⟩], dur := 1,
    uuid1 := "u1", uuid2 := "u2", env1 := envOk, env2 := envOk }

/-- Per-object oracle whose S3 fetch raises. -/
def orcFetchFail : ObjOracle :=
  { fetch := .error (), clock := [⟨2024, 1, 2, 3⟩], dur := 1,
    uuid1 := "u1", uuid2 := "u2", env1 := envOk, env2 := envOk }

/-- A queued-notification event carrying one `ObjectCreated:Put` record. -/
def ev1 : Event :=
  ⟨some [⟨some ⟨some [⟨some "aws:s3", some "ObjectCreated:Put", "b", "inbox/report.csv"⟩]⟩⟩]⟩

/-! ## Helper lemmas -/

/-- The delivery attempt always targets exactly the `file_path` it was
given. -/
theorem transfer_target_eq (env : NetEnv) (uuid : String) (fs dirs : List String)
    (file_path : String) (c : Nat) (creds : List (String × String)) (loc : String) :
    (transfer_file_to_onprem env uuid fs dirs file_path c creds loc).target = file_path := by
  unfold transfer_file_to_onprem
  cases h : transferBody env dirs file_path creds loc with
  | ok v => cases v; simp [h]
  | error e => simp [h]

/-- On every exit path the local filesystem after the attempt is the
initial one with the freshly written temp file erased. -/
theorem transfer_fs_eq (env : NetEnv) (uuid : String) (fs dirs : List String)
    (file_path : String) (c : Nat) (creds : List (String × String)) (loc : String) :
    (transfer_file_to_onprem env uuid fs dirs file_path c creds loc).fs =
      (("/tmp/" ++ uuid) :: fs).erase ("/tmp/" ++ uuid) := by
  unfold transfer_file_to_onprem
  cases h : transferBody env dirs file_path creds loc with
  | ok v => cases v; simp [h]
  | error e => simp [h]

/-- Complete characterization of a delivery attempt's boolean outcome: it
succeeds exactly when the host key is present, the port key is present and
parses, the connection succeeds, directory provisioning succeeds, and the
upload succeeds — every single failure is converted to `false`, never
raised. -/
theorem transfer_success_char (env : NetEnv) (uuid : String) (fs dirs : List String)
    (file_path : String) (c : Nat) (creds : List (String × String)) (loc : String) :
    (transfer_file_to_onprem env uuid fs dirs file_path c creds loc).success =
      ((List.lookup (loc ++ "_host") creds).isSome
        && ((List.lookup (loc ++ "_port") creds).bind int_of_string).isSome
        && env.connectOk
        && (create_remote_directory env.race ((dirname file_path).length + 1) dirs
              (dirname file_path)).isOk
        && env.putOk) := by
  unfold transfer_file_to_onprem transferBody
  cases hh : List.lookup (loc ++ "_host") creds with
  | none => simp [hh, bind, Except.bind]
  | some hst =>
    cases hp : List.lookup (loc ++ "_port") creds with
    | none => simp [hh, hp, bind, Except.bind]
    | some pstr =>
      cases hn : int_of_string pstr with
      | none => simp [hh, hp, hn, bind, Except.bind]
      | some pn =>
        cases hc : env.connectOk with
        | false => simp [hh, hp, hn, hc, bind, Except.bind]
        | true =>
          cases hd : create_remote_directory env.race ((dirname file_path).length + 1) dirs
              (dirname file_path) with
          | error e => simp [hh, hp, hn, hc, hd, bind, Except.bind, Except.isOk, Except.toBool]
          | ok dirs1 =>
            cases hput : env.putOk with
            | false => simp [hh, hp, hn, hc, hd, hput, bind, Except.bind, Except.isOk, Except.toBool]
            | true => simp [hh, hp, hn, hc, hd, hput, bind, Except.bind, Except.isOk, Except.toBool]

/-- If a concurrent invocation creates `d` between the failed `stat` and the
`mkdir`, the `mkdir` failure propagates out of `create_remote_directory`
uncaught, whatever happened while provisioning the ancestors. -/
theorem create_remote_directory_race_error (race : String → Bool) (fuel : Nat)
    (dirs : List String) (d : String) (hd : d ≠ "/") (hmem : d ∉ dirs)
    (hrace : race d = true) :
    create_remote_directory race (fuel + 1) dirs d = .error () := by
  have hc : dirs.contains d = false := by simpa using hmem
  rw [create_remote_directory]
  simp only [if_neg hd, hc, Bool.false_eq_true, if_false]
  cases hrec : create_remote_directory race fuel dirs (dirname d) with
  | error e => rfl
  | ok dirs1 => simp [hrace]

/-! ## Claims -/

/-- C1: for every processed object, the JobResult's overall success equals
the logical AND of the per-destination boolean results for `op1` and `op2`
(index.py:135: `all(locations_status.values())`); in particular it is true
iff both configured destination deliveries reported success. -/
theorem C1_overall_success_is_and_of_destinations (orc : ObjOracle)
    (creds : List (String × String)) (fs d1 d2 : List String) (b k : String) :
    (process_s3_event orc creds fs d1 d2 b k).success =
      (((process_s3_event orc creds fs d1 d2 b k).op1.map TransferResult.success).getD false
        && ((process_s3_event orc creds fs d1 d2 b k).op2.map TransferResult.success).getD false) := by
  unfold process_s3_event
  cases orc.fetch with
  | error e => simp
  | ok v => cases v; simp

/-- C2 counterexample: with the oracle whose clock readings straddle the
03→04 hour boundary between the two deliveries, the code hands BOTH
destinations the hour-03 path computed once at index.py:122, whereas the
claimed per-delivery computation (`perDeliveryPaths`, taken from the spec's
words) would give `op2` the hour-04 path. The claim that the remote path is
computed separately per delivery is therefore false of the code. -/
theorem C2_counterexample :
    (process_s3_event orcOk credsGood [] [] [] "b" "inbox/report.csv").op1.map TransferResult.target
        = some "/From_AWS/2024/01/02/03/report.csv"
    ∧ (process_s3_event orcOk credsGood [] [] [] "b" "inbox/report.csv").op2.map TransferResult.target
        = some "/From_AWS/2024/01/02/03/report.csv"
    ∧ perDeliveryPaths orcOk.clock "inbox/report.csv"
        = ("/From_AWS/2024/01/02/03/report.csv", "/From_AWS/2024/01/02/04/report.csv")
    ∧ (process_s3_event orcOk credsGood [] [] [] "b" "inbox/report.csv").op2.map TransferResult.target
        ≠ some (perDeliveryPaths orcOk.clock "inbox/report.csv").2 :=
  ⟨by decide, by decide, by decide, by decide⟩

/-- C2 (amended): the canonical remote path
`/From_AWS/<UTC-hour-path>/<basename>` is computed once per job, before the
two deliveries, from the single clock reading at index.py:122; both
destination attempts are handed that same path, so the two destinations
never receive the object under different hour folders within one job. -/
theorem C2_amended_path_computed_once_per_job (orc : ObjOracle)
    (creds : List (String × String)) (fs d1 d2 : List String) (b k : String)
    (c s : Nat) (h : orc.fetch = .ok (c, s)) :
    ∃ r1 r2, (process_s3_event orc creds fs d1 d2 b k).op1 = some r1
      ∧ (process_s3_event orc creds fs d1 d2 b k).op2 = some r2
      ∧ r1.target = "/From_AWS/" ++ get_current_path (orc.clock.headD ⟨0, 0, 0, 0⟩) ++ "/" ++ basename k
      ∧ r2.target = r1.target := by
  unfold process_s3_event
  rw [h]
  refine ⟨_, _, rfl, rfl, ?_, ?_⟩
  · rw [transfer_target_eq]
  · rw [transfer_target_eq, transfer_target_eq]

/-- Witness for the amended C2 at a concrete input. -/
theorem C2_amended_witness :
    orcOk.fetch = Except.ok (7, 120)
    ∧ (∃ r1 r2, (process_s3_event orcOk credsGood [] [] [] "b" "inbox/report.csv").op1 = some r1
        ∧ (process_s3_event orcOk credsGood [] [] [] "b" "inbox/report.csv").op2 = some r2
        ∧ r1.target = "/From_AWS/" ++ get_current_path (orcOk.clock.headD ⟨0, 0, 0, 0⟩) ++ "/" ++ basename "inbox/report.csv"
        ∧ r2.target = r1.target) :=
  ⟨rfl, C2_amended_path_computed_once_per_job orcOk credsGood [] [] [] "b" "inbox/report.csv" 7 120 rfl⟩

/-- C4: for every delivery attempt with a uniquely named temp file (one not
already present), the temp file is absent from the filesystem after the
attempt, on every exit path — the `finally` at index.py:89-92 removes it
whether the body succeeded or raised. -/
theorem C4_temp_file_absent_after_attempt (env : NetEnv) (uuid : String)
    (fs dirs : List String) (file_path : String) (c : Nat)
    (creds : List (String × String)) (loc : String)
    (h : ("/tmp/" ++ uuid) ∉ fs) :
    ("/tmp/" ++ uuid) ∉ (transfer_file_to_onprem env uuid fs dirs file_path c creds loc).fs := by
  rw [transfer_fs_eq, List.erase_cons_head]
  exact h

/-- Witness for C4 at a concrete input. -/
theorem C4_witness :
    (("/tmp/" ++ "u1") ∉ ([] : List String))
    ∧ ("/tmp/" ++ "u1") ∉ (transfer_file_to_onprem envOk "u1" [] []
        "/From_AWS/2024/01/02/03/report.csv" 7 credsGood "op1").fs :=
  ⟨by simp, C4_temp_file_absent_after_attempt envOk "u1" [] []
    "/From_AWS/2024/01/02/03/report.csv" 7 credsGood "op1" (by simp)⟩

/-- C5 counterexample: at a concrete input where a concurrent invocation
creates the object's hour directory between the failed `stat` and the
`mkdir` (everything else healthy), `create_remote_directory` propagates the
`mkdir` failure instead of re-checking existence, and the delivery attempt
fails. The claim that such a benign race is caught, retried as an existence
check, and not treated as a hard failure of the delivery is false of the
code. -/
theorem C5_counterexample :
    create_remote_directory envRace.race
        ((dirname "/From_AWS/2024/01/02/03/report.csv").length + 1) []
        (dirname "/From_AWS/2024/01/02/03/report.csv") = .error ()
    ∧ (transfer_file_to_onprem envRace "u1" [] []
        "/From_AWS/2024/01/02/03/report.csv" 7 credsGood "op1").success = false :=
  ⟨by rfl, by decide⟩

/-- C5 (amended): if creating the object's parent directory fails because
it now already exists (a benign race with a concurrent invocation), the
creation error is NOT caught inside directory provisioning — there is no
retry as an existence check; the error propagates to the delivery
attempt's general exception handler and that delivery attempt fails with
`success = false`. -/
theorem C5_amended_race_fails_delivery (env : NetEnv) (uuid : String)
    (fs dirs : List String) (file_path : String) (c : Nat)
    (creds : List (String × String)) (loc : String)
    (hrace : env.race (dirname file_path) = true)
    (hmem : dirname file_path ∉ dirs)
    (hroot : dirname file_path ≠ "/") :
    (transfer_file_to_onprem env uuid fs dirs file_path c creds loc).success = false := by
  rw [transfer_success_char,
    create_remote_directory_race_error env.race ((dirname file_path).length) dirs
      (dirname file_path) hroot hmem hrace]
  simp [Except.isOk, Except.toBool]

/-- Witness for the amended C5 at a concrete input. -/
theorem C5_amended_witness :
    envRace.race (dirname "/From_AWS/2024/01/02/03/report.csv") = true
    ∧ (dirname "/From_AWS/2024/01/02/03/report.csv" ∉ ([] : List String))
    ∧ dirname "/From_AWS/2024/01/02/03/report.csv" ≠ "/"
    ∧ (transfer_file_to_onprem envRace "u1" [] []
        "/From_AWS/2024/01/02/03/report.csv" 7 credsGood "op1").success = false :=
  ⟨by decide, by simp, by decide,
    C5_amended_race_fails_delivery envRace "u1" [] []
      "/From_AWS/2024/01/02/03/report.csv" 7 credsGood "op1" (by decide) (by simp) (by decide)⟩

/-- A fetch failure is caught by the outer `except` at index.py:173: the
job reports `False`, no delivery is attempted, no per-object metric is
emitted, and the filesystem and remote state are untouched. -/
theorem process_s3_event_fetch_error (orc : ObjOracle) (creds : List (String × String))
    (fs d1 d2 : List String) (b k : String) (h : orc.fetch = .error ()) :
    process_s3_event orc creds fs d1 d2 b k =
      { success := false, op1 := none, op2 := none, metrics := [],
        fs := fs, dirs1 := d1, dirs2 := d2 } := by
  unfold process_s3_event
  rw [h]

/-- C3: a delivery attempt is a total function to a `DestinationResult` —
its boolean is completely characterized by the five failure sources
(missing host key, missing/unparsable port key, connect failure, directory
provisioning failure, upload failure), every one of which becomes
`success = false` rather than an exception; moreover the second
destination's outcome does not depend on the first destination's
environment, and the second attempt happens whenever the first did. -/
theorem C3_delivery_never_raises_and_destinations_independent :
    (∀ (env : NetEnv) (uuid : String) (fs dirs : List String) (file_path : String)
        (c : Nat) (creds : List (String × String)) (loc : String),
      (transfer_file_to_onprem env uuid fs dirs file_path c creds loc).success =
        ((List.lookup (loc ++ "_host") creds).isSome
          && ((List.lookup (loc ++ "_port") creds).bind int_of_string).isSome
          && env.connectOk
          && (create_remote_directory env.race ((dirname file_path).length + 1) dirs
                (dirname file_path)).isOk
          && env.putOk))
    ∧ (∀ (orc : ObjOracle) (e1 : NetEnv) (creds : List (String × String))
          (fs d1 d2 : List String) (b k : String),
        (process_s3_event { orc with env1 := e1 } creds fs d1 d2 b k).op2.map TransferResult.success
          = (process_s3_event orc creds fs d1 d2 b k).op2.map TransferResult.success)
    ∧ (∀ (orc : ObjOracle) (creds : List (String × String)) (fs d1 d2 : List String) (b k : String),
        (process_s3_event orc creds fs d1 d2 b k).op1.isSome
          = (process_s3_event orc creds fs d1 d2 b k).op2.isSome) := by
  refine ⟨transfer_success_char, ?_, ?_⟩
  · intro orc e1 creds fs d1 d2 b k
    obtain ⟨f, cl, du, u1, u2, eo1, eo2⟩ := orc
    cases f with
    | error e => rfl
    | ok v =>
      cases v with
      | mk cont siz =>
        simp only [process_s3_event, Option.map]
        congr 1
        rw [transfer_success_char, transfer_success_char]
  · intro orc creds fs d1 d2 b k
    unfold process_s3_event
    cases h : orc.fetch with
    | error e => rfl
    | ok v => cases v; rfl

/-- C6 counterexample: with a secret lacking the `op1_host` key but an
otherwise healthy world, the invocation does NOT fail: it completes with
`statusCode 200`, the lone object IS processed (counted in the total), the
`op1` delivery is attempted and reports `success = false`, and `op2`
succeeds. A missing per-destination key is therefore not fatal to the
batch, contradicting the claim. -/
theorem C6_counterexample :
    (lambda_handler ev1 (.ok credsNoOp1Host) (.error ()) (fun _ => orcOk) 5 "tb").toOption.map
        (fun r => (r.statusCode, r.total_files, r.successful_files)) = some (200, 1, 0)
    ∧ (lambda_handler ev1 (.ok credsNoOp1Host) (.error ()) (fun _ => orcOk) 5 "tb").toOption.map
        (fun r => r.obs.map (fun j => (j.op1.map TransferResult.success, j.op2.map TransferResult.success)))
        = some [(some false, some true)] :=
  ⟨by rfl, by rfl⟩

/-- C6 (amended): a failure to fetch or parse the secret itself is fatal to
the entire invocation — the handler propagates it and no object is
processed. A missing `<label>_host`/`<label>_port` key for an attempted
destination, by contrast, is caught inside that destination's delivery
attempt and recorded as `success = false` for that destination only; the
batch continues. -/
theorem C6_amended_secret_fatal_missing_key_local :
    (∀ (event : Event) (scanResult : Except Unit (List String)) (oracle : Nat → ObjOracle)
        (duration : ℚ) (bucket_name : String),
      lambda_handler event (.error ()) scanResult oracle duration bucket_name = .error ())
    ∧ (∀ (env : NetEnv) (uuid : String) (fs dirs : List String) (file_path : String)
          (c : Nat) (creds : List (String × String)) (loc : String),
        (List.lookup (loc ++ "_host") creds = none ∨ List.lookup (loc ++ "_port") creds = none) →
        (transfer_file_to_onprem env uuid fs dirs file_path c creds loc).success = false) := by
  constructor
  · intro event scanResult oracle duration bucket_name
    rfl
  · intro env uuid fs dirs file_path c creds loc h
    rw [transfer_success_char]
    rcases h with h | h <;> simp [h]

/-- Witness for the amended C6 at concrete inputs. -/
theorem C6_amended_witness :
    lambda_handler ev1 (.error ()) (.error ()) (fun _ => orcOk) 5 "tb" = .error ()
    ∧ (List.lookup ("op1" ++ "_host") credsNoOp1Host = none
        ∨ List.lookup ("op1" ++ "_port") credsNoOp1Host = none)
    ∧ (transfer_file_to_onprem envOk "u1" [] []
        "/From_AWS/2024/01/02/03/report.csv" 7 credsNoOp1Host "op1").success = false :=
  ⟨C6_amended_secret_fatal_missing_key_local.1 ev1 (.error ()) (fun _ => orcOk) 5 "tb",
    Or.inl (by decide),
    C6_amended_secret_fatal_missing_key_local.2 envOk "u1" [] []
      "/From_AWS/2024/01/02/03/report.csv" 7 credsNoOp1Host "op1" (Or.inl (by decide))⟩

/-- C7: an object whose fetch raises is caught, not propagated — with the
credentials in hand the handler always completes; the failed fetch makes
the job report `False` with no deliveries and no per-object metrics; at the
loop level the object is counted in `total_files`, adds nothing to
`successful_files`, leaves the filesystem and remote state untouched, and
the loop moves on to the next object's oracle. -/
theorem C7_fetch_failure_counted_and_contained :
    (∀ (event : Event) (creds : List (String × String)) (scanResult : Except Unit (List String))
        (oracle : Nat → ObjOracle) (duration : ℚ) (bucket_name : String),
      (lambda_handler event (.ok creds) scanResult oracle duration bucket_name).isOk = true)
    ∧ (∀ (orc : ObjOracle) (creds : List (String × String)) (fs d1 d2 : List String) (b k : String),
        orc.fetch = .error () →
        process_s3_event orc creds fs d1 d2 b k =
          { success := false, op1 := none, op2 := none, metrics := [],
            fs := fs, dirs1 := d1, dirs2 := d2 })
    ∧ (∀ (oracle : Nat → ObjOracle) (creds : List (String × String)) (st : LoopState) (b k : String),
        (oracle st.idx).fetch = .error () →
        stepObject oracle creds st b k =
          { st with
            total_files := st.total_files + 1
            idx := st.idx + 1
            obs := st.obs ++ [{ success := false, op1 := none, op2 := none,
                                metrics := [], fs := st.fs, dirs1 := st.dirs1,
                                dirs2 := st.dirs2 }] }) := by
  refine ⟨?_, process_s3_event_fetch_error, ?_⟩
  · intro event creds scanResult oracle duration bucket_name
    rfl
  · intro oracle creds st b k h
    unfold stepObject
    rw [process_s3_event_fetch_error _ _ _ _ _ _ _ h]
    simp

/-- Witness for C7 at concrete inputs. -/
theorem C7_witness :
    (lambda_handler ev1 (.ok credsGood) (.error ()) (fun _ => orcFetchFail) 5 "tb").isOk = true
    ∧ orcFetchFail.fetch = .error ()
    ∧ process_s3_event orcFetchFail credsGood [] [] [] "b" "k" =
        { success := false, op1 := none, op2 := none, metrics := [],
          fs := [], dirs1 := [], dirs2 := [] }
    ∧ stepObject (fun _ => orcFetchFail) credsGood ⟨0, 0, [], [], [], 0, []⟩ "b" "k" =
        ⟨1, 0, [], [], [], 1, [{ success := false, op1 := none, op2 := none,
                                 metrics := [], fs := [], dirs1 := [],
                                 dirs2 := [] }]⟩ :=
  ⟨C7_fetch_failure_counted_and_contained.1 ev1 credsGood (.error ()) (fun _ => orcFetchFail) 5 "tb",
    rfl,
    C7_fetch_failure_counted_and_contained.2.1 orcFetchFail credsGood [] [] [] "b" "k" rfl,
    C7_fetch_failure_counted_and_contained.2.2 (fun _ => orcFetchFail) credsGood
      ⟨0, 0, [], [], [], 0, []⟩ "b" "k" rfl⟩

/-- The batch metric list contains a `BatchSuccessRate` entry iff the total
is positive, and that entry's value is `successful/total × 100`. -/
theorem batchMetricsOf_rate (dur : ℚ) (T S : Nat) :
    ((∃ m ∈ batchMetricsOf dur T S, m.name = "BatchSuccessRate") ↔ 0 < T)
    ∧ (∀ m ∈ batchMetricsOf dur T S, m.name = "BatchSuccessRate" →
        m.value = (S : ℚ) / (T : ℚ) * 100) := by
  unfold batchMetricsOf
  by_cases hT : T > 0
  · rw [if_pos hT]
    constructor
    · constructor
      · intro _
        exact hT
      · intro _
        exact ⟨⟨"BatchSuccessRate", (S : ℚ) / (T : ℚ) * 100⟩, by simp, rfl⟩
    · intro m hm hname
      simp only [List.mem_append, List.mem_cons, List.not_mem_nil, or_false] at hm
      rcases hm with (h | h | h) | h <;> subst h
      · exact absurd hname (by simp)
      · exact absurd hname (by simp)
      · exact absurd hname (by simp)
      · rfl
  · rw [if_neg hT]
    constructor
    · constructor
      · rintro ⟨m, hm, hname⟩
        exfalso
        simp only [List.mem_cons, List.not_mem_nil, or_false] at hm
        rcases hm with h | h | h <;> subst h <;> simp at hname
      · intro h
        exact absurd h hT
    · intro m hm hname
      exfalso
      simp only [List.mem_cons, List.not_mem_nil, or_false] at hm
      rcases hm with h | h | h <;> subst h <;> simp at hname

/-- C8: for every completed invocation, a `BatchSuccessRate` batch metric
is emitted iff `total_files > 0` (index.py:256-261), and when emitted its
value is `successful_files / total_files × 100`. -/
theorem C8_success_rate_iff_total_positive (event : Event)
    (creds : List (String × String)) (scanResult : Except Unit (List String))
    (oracle : Nat → ObjOracle) (duration : ℚ) (bucket_name : String)
    (r : HandlerResult)
    (h : lambda_handler event (.ok creds) scanResult oracle duration bucket_name = .ok r) :
    ((∃ m ∈ r.batchMetrics, m.name = "BatchSuccessRate") ↔ 0 < r.total_files)
    ∧ (∀ m ∈ r.batchMetrics, m.name = "BatchSuccessRate" →
        m.value = (r.successful_files : ℚ) / (r.total_files : ℚ) * 100) := by
  simp only [lambda_handler, Except.ok.injEq] at h
  subst h
  exact batchMetricsOf_rate duration
    (runLoops event creds scanResult oracle bucket_name).total_files
    (runLoops event creds scanResult oracle bucket_name).successful_files

/-- The completed invocation used by the C8 witness. -/
def res1 : HandlerResult :=
  (lambda_handler ev1 (.ok credsGood) (.error ()) (fun _ => orcOk) 5 "tb").toOption.getD
    ⟨0, 0, 0, [], []⟩

/-- Witness for C8 at a concrete completed invocation. -/
theorem C8_witness :
    lambda_handler ev1 (.ok credsGood) (.error ()) (fun _ => orcOk) 5 "tb" = .ok res1
    ∧ (((∃ m ∈ res1.batchMetrics, m.name = "BatchSuccessRate") ↔ 0 < res1.total_files)
      ∧ (∀ m ∈ res1.batchMetrics, m.name = "BatchSuccessRate" →
          m.value = (res1.successful_files : ℚ) / (res1.total_files : ℚ) * 100)) :=
  ⟨rfl, C8_success_rate_iff_total_positive ev1 credsGood (.error ()) (fun _ => orcOk) 5 "tb" res1 rfl⟩

/-- C9: a record failing the created-filter leaves the loop state entirely
unchanged (ignored without error); the total counts exactly the records
passing the filter; every record passing the filter has an event name
beginning with `ObjectCreated`; and an event with an empty record list
completes with `total_files = 0`. -/
theorem C9_only_created_records_processed :
    (∀ (oracle : Nat → ObjOracle) (creds : List (String × String)) (st : LoopState) (r : S3Rec),
      isObjectCreated r = false → stepS3Record oracle creds st r = st)
    ∧ (∀ (oracle : Nat → ObjOracle) (creds : List (String × String)) (st : LoopState)
          (recs : List S3Rec),
        (recs.foldl (stepS3Record oracle creds) st).total_files
          = st.total_files + (recs.filter isObjectCreated).length)
    ∧ (∀ r : S3Rec, isObjectCreated r = true →
        "ObjectCreated".data.isPrefixOf (r.eventName.getD "").data = true)
    ∧ (∀ (creds : List (String × String)) (scanResult : Except Unit (List String))
          (oracle : Nat → ObjOracle) (duration : ℚ) (bucket_name : String),
        lambda_handler ⟨some []⟩ (.ok creds) scanResult oracle duration bucket_name
          = .ok ⟨200, 0, 0, batchMetricsOf duration 0 0, []⟩) := by
  refine ⟨?_, ?_, ?_, ?_⟩
  · intro oracle creds st r h
    simp [stepS3Record, h]
  · intro oracle creds st recs
    induction recs generalizing st with
    | nil => simp
    | cons r rest ih =>
      cases h : isObjectCreated r with
      | false =>
        have hstep : stepS3Record oracle creds st r = st := by simp [stepS3Record, h]
        rw [List.foldl_cons, hstep, ih, List.filter_cons, h]
        simp
      | true =>
        have hstep : stepS3Record oracle creds st r = stepObject oracle creds st r.bucket r.key := by
          simp [stepS3Record, h]
        rw [List.foldl_cons, hstep, ih, List.filter_cons, h]
        simp [stepObject]
        omega
  · intro r h
    simp only [isObjectCreated, Bool.and_eq_true] at h
    exact h.2
  · intro creds scanResult oracle duration bucket_name
    rfl

/-- Witness for C9 at concrete records. -/
theorem C9_witness :
    (isObjectCreated ⟨some "aws:s3", some "ObjectRemoved:Delete", "b", "k"⟩ = false
      ∧ stepS3Record (fun _ => orcOk) credsGood ⟨0, 0, [], [], [], 0, []⟩
          ⟨some "aws:s3", some "ObjectRemoved:Delete", "b", "k"⟩ = ⟨0, 0, [], [], [], 0, []⟩)
    ∧ (isObjectCreated ⟨some "aws:s3", some "ObjectCreated:Put", "b", "k"⟩ = true
      ∧ "ObjectCreated".data.isPrefixOf
          (((⟨some "aws:s3", some "ObjectCreated:Put", "b", "k"⟩ : S3Rec)).eventName.getD "").data
          = true) :=
  ⟨⟨by decide,
    C9_only_created_records_processed.1 (fun _ => orcOk) credsGood ⟨0, 0, [], [], [], 0, []⟩
      ⟨some "aws:s3", some "ObjectRemoved:Delete", "b", "k"⟩ (by decide)⟩,
   ⟨by decide,
    C9_only_created_records_processed.2.2.1 ⟨some "aws:s3", some "ObjectCreated:Put", "b", "k"⟩
      (by decide)⟩⟩

/-- C10: on the scheduled-scan path (no top-level `Records`), a failure of
the bucket listing is caught and swallowed (index.py:230-231): the
invocation still completes with `statusCode 200`, `total_files = 0`,
`successful_files = 0`, and emits exactly the three unconditional batch
metrics (no `BatchSuccessRate`, since the total is zero). -/
theorem C10_scan_listing_failure_swallowed (event : Event)
    (creds : List (String × String)) (oracle : Nat → ObjOracle)
    (duration : ℚ) (bucket_name : String) (h : event.records = none) :
    lambda_handler event (.ok creds) (.error ()) oracle duration bucket_name
      = .ok ⟨200, 0, 0, batchMetricsOf duration 0 0, []⟩
    ∧ (batchMetricsOf duration 0 0).map Metric.name
      = ["BatchExecutionTime", "BatchFilesProcessed", "BatchFilesSuccessful"] := by
  constructor
  · unfold lambda_handler runLoops
    rw [h]
  · rfl

/-- Witness for C10 at a concrete scheduled-scan invocation. -/
theorem C10_witness :
    (Event.records ⟨none⟩ = none)
    ∧ (lambda_handler ⟨none⟩ (.ok credsGood) (.error ()) (fun _ => orcOk) 5 "tb"
        = .ok ⟨200, 0, 0, batchMetricsOf 5 0 0, []⟩
      ∧ (batchMetricsOf 5 0 0).map Metric.name
        = ["BatchExecutionTime", "BatchFilesProcessed", "BatchFilesSuccessful"]) :=
  ⟨rfl, C10_scan_listing_failure_swallowed ⟨none⟩ credsGood (fun _ => orcOk) 5 "tb" rfl⟩
